import Mathlib

/-!
Shallow embedding of the Casa Fresca temperature dashboard
(`src/app/page.tsx`, with the near-duplicate iterations in
`src/unnamed/part_000` and `src/unnamed/part_001`).

Modelling choices:
* A JavaScript number that can be NaN is modelled by `JsNum`: either `nan`
  or a rational (`num q`).  All temperature strings in the program are short
  decimal literals, so rationals model their parsed values exactly; no claim
  depends on binary floating-point rounding.
* `new Date(s).getTime()` is modelled by storing each reading's instant
  directly as an integer number of milliseconds in the `timestamp` field;
  the code only ever uses timestamps through `getTime()` arithmetic and
  `Date` comparison, both of which are millisecond comparisons.
* `parseFloat` is modelled over decimal literals (optional sign, digits,
  optional fractional part); every other input yields `nan`, matching the
  JavaScript builtin on all inputs this program can see.
-/

/-- A JavaScript number: either NaN or a (rational) numeric value. -/
inductive JsNum where
  | nan : JsNum
  | num : ℚ → JsNum
deriving DecidableEq, Repr

namespace JsNum

/-- JavaScript subtraction `a - b`: NaN propagates. -/
def sub : JsNum → JsNum → JsNum
  | num a, num b => num (a - b)
  | _, _ => nan

/-- JavaScript unary minus: NaN propagates. -/
def neg : JsNum → JsNum
  | num a => num (-a)
  | nan => nan

/-- JavaScript strict comparison `a > b`: any comparison with NaN is false. -/
def gt : JsNum → JsNum → Bool
  | num a, num b => decide (b < a)
  | _, _ => false

/-- JavaScript strict comparison `a < b`: any comparison with NaN is false. -/
def lt : JsNum → JsNum → Bool
  | num a, num b => decide (a < b)
  | _, _ => false

/-- Model of JavaScript `x.toFixed(1)`.  `NaN.toFixed(1)` is the literal
string "NaN"; a numeric value is rendered with one fractional digit
(rounding to nearest; the exact tie-breaking of `toFixed` is irrelevant to
every claim, which only distinguish "NaN" from a digit string). -/
def toFixed1 : JsNum → String
  | nan => "NaN"
  | num q =>
    let n : Int := round (q * 10)
    (if n < 0 then "-" else "") ++ toString (n.natAbs / 10) ++ "." ++ toString (n.natAbs % 10)

end JsNum

/-- Digits of a decimal string read into a natural number. -/
def digitsToNat (ds : List Char) : ℕ :=
  ds.foldl (fun a c => a * 10 + (c.toNat - 48)) 0

/-- Model of the JavaScript `parseFloat` builtin on the inputs this program
can see: optional leading whitespace, an optional sign, then a decimal
literal `digits [ . digits ]` (also `.digits` or `digits.`).  Any input with
no leading digit (for example the empty string) yields NaN.  Exponent and
"Infinity" literals, which no temperature string uses, are outside the
modelled input space. -/
def parseFloat (s : String) : JsNum :=
  let cs := s.data.dropWhile (fun c => c == ' ' || c == '\t' || c == '\n')
  let signAndRest : ℚ × List Char :=
    match cs with
    | '-' :: r => (-1, r)
    | '+' :: r => (1, r)
    | _ => (1, cs)
  let ip := signAndRest.2.takeWhile Char.isDigit
  let after := signAndRest.2.dropWhile Char.isDigit
  let fp : List Char :=
    match after with
    | '.' :: r => r.takeWhile Char.isDigit
    | _ => []
  if ip.isEmpty && fp.isEmpty then JsNum.nan
  else JsNum.num (signAndRest.1 *
    ((digitsToNat ip : ℚ) + (digitsToNat fp : ℚ) / (10 : ℚ) ^ fp.length))

/-- One row of the `casa_fresca_readings` table (interface
`TemperatureReading` in the source).  `timestamp` is the reading's instant
in milliseconds since the epoch (the value of `new Date(r.timestamp).getTime()`);
the temperature fields are kept as the decimal strings the store transmits. -/
structure TemperatureReading where
  id : String
  timestamp : Int
  outdoor_temp : String
  indoor_temp : String
  temp_differential : String
deriving DecidableEq, Repr

/-- `const latestReading = data[data.length - 1]`: the last element of the
fetched sequence, `undefined` (here `none`) when the sequence is empty. -/
def latestReading (data : List TemperatureReading) : Option TemperatureReading :=
  data.getLast?

/-- `parseFloat(latestReading.outdoor_temp) > parseFloat(latestReading.indoor_temp)`
when a latest reading exists, `false` otherwise (source line
`const shouldCloseWindows = latestReading ? ... : false`). -/
def shouldCloseWindows (data : List TemperatureReading) : Bool :=
  match latestReading data with
  | some r => JsNum.gt (parseFloat r.outdoor_temp) (parseFloat r.indoor_temp)
  | none => false

/-- `Math.abs(readingTime.getTime() - target.getTime())`: the distance, in
milliseconds, from a reading's timestamp to the target instant. -/
def distTo (target : Int) (r : TemperatureReading) : ℕ :=
  (r.timestamp - target).natAbs

/-- The nearest-past lookup inside `get24hDifference`:
`data.reduce((closest, reading) => readingDiff < closestDiff ? reading : closest, data[0])`.
JavaScript `reduce` with an initial value folds over every element of the
array, so the fold runs over the full list with `data[0]` as initial
accumulator; on an empty array it returns the initial value (`undefined`,
here `none`). -/
def reading24hAgo (data : List TemperatureReading) (target : Int) :
    Option TemperatureReading :=
  match data with
  | [] => none
  | d0 :: rest =>
    some ((d0 :: rest).foldl
      (fun closest reading =>
        if distTo target reading < distTo target closest then reading else closest)
      d0)

/-- `get24hDifference(currentTemp, isIndoor)` from `src/app/page.tsx`
(lines 86-110): null when there is no latest reading, otherwise
`past - current` where `past` is the selected field of the reading closest
to 24 hours before the latest reading's timestamp. -/
def get24hDifference (data : List TemperatureReading) (currentTemp : String)
    (isIndoor : Bool) : Option JsNum :=
  match latestReading data with
  | none => none
  | some latest =>
    match reading24hAgo data (latest.timestamp - 24 * 60 * 60 * 1000) with
    | none => none
    | some r =>
      some (JsNum.sub
        (parseFloat (if isIndoor then r.indoor_temp else r.outdoor_temp))
        (parseFloat currentTemp))

/-- Modelled from the spec: "Output: signed delta =
currentValue - valueAtNearestPastReading, or unavailable if no readings
exist", with the nearest-past reading found by the spec's own scan
algorithm (identical to the code's).  This definition follows the spec's
words and exists only to be compared with `get24hDifference`. -/
def specDelta24h (data : List TemperatureReading) (currentTemp : String)
    (isIndoor : Bool) : Option JsNum :=
  match latestReading data with
  | none => none
  | some latest =>
    match reading24hAgo data (latest.timestamp - 24 * 60 * 60 * 1000) with
    | none => none
    | some r =>
      some (JsNum.sub (parseFloat currentTemp)
        (parseFloat (if isIndoor then r.indoor_temp else r.outdoor_temp)))

/-- The user-selected trailing window of the chart. -/
inductive TimeRange where
  | h24 : TimeRange
  | d7 : TimeRange
deriving DecidableEq, Repr

/-- `cutoffTime` inside `formatData`: `now - 24*60*60*1000` for the 24h
window, `now - 7*24*60*60*1000` for the 7d window. -/
def cutoffTime (now : Int) (timeRange : TimeRange) : Int :=
  match timeRange with
  | TimeRange.h24 => now - 24 * 60 * 60 * 1000
  | TimeRange.d7 => now - 7 * 24 * 60 * 60 * 1000

/-- The filter step of `formatData`:
`data.filter(reading => new Date(reading.timestamp) >= cutoffTime)`. -/
def filteredData (now : Int) (timeRange : TimeRange)
    (data : List TemperatureReading) : List TemperatureReading :=
  data.filter (fun reading => decide (cutoffTime now timeRange ≤ reading.timestamp))

/-- One point handed to the chart renderer (the locale-formatted time label
is presentational and omitted). -/
structure ChartPoint where
  outdoor : JsNum
  indoor : JsNum
deriving DecidableEq, Repr

/-- `formatData`: filter to the selected window, then map each reading to
its parsed chart point. -/
def formatData (now : Int) (timeRange : TimeRange)
    (data : List TemperatureReading) : List ChartPoint :=
  (filteredData now timeRange data).map
    (fun reading => ⟨parseFloat reading.outdoor_temp, parseFloat reading.indoor_temp⟩)

/-- The indoor value cell of the dashboard (page.tsx line 158):
`latestReading ? parseFloat(latestReading.indoor_temp).toFixed(1) : '--'`. -/
def displayedIndoorValue (data : List TemperatureReading) : String :=
  match latestReading data with
  | some r => JsNum.toFixed1 (parseFloat r.indoor_temp)
  | none => "--"

/-- The outdoor value cell of the dashboard (page.tsx line 161). -/
def displayedOutdoorValue (data : List TemperatureReading) : String :=
  match latestReading data with
  | some r => JsNum.toFixed1 (parseFloat r.outdoor_temp)
  | none => "--"

/-- The "que ayer" delta cell (page.tsx lines 165-194): rendered only when
a latest reading exists and `data.length > 1`; when `get24hDifference`
returns a non-null `diff` the rendered text is
`(-diff).toFixed(1)` followed by `diff < 0 ? ' más' : 'menos'` and
`' que ayer'`; otherwise the cell is empty. -/
def deltaText (data : List TemperatureReading) (isIndoor : Bool) : String :=
  match latestReading data with
  | none => ""
  | some latest =>
    if data.length > 1 then
      match get24hDifference data
        (if isIndoor then latest.indoor_temp else latest.outdoor_temp) isIndoor with
      | none => ""
      | some diff =>
        JsNum.toFixed1 (JsNum.neg diff)
          ++ (if JsNum.lt diff (JsNum.num 0) then " más" else "menos")
          ++ " que ayer"
    else ""

/-! Concrete readings used by the closed evaluation theorems below. -/

/-- Reading one day before `c1r1`, indoor 15.0 °C. -/
def c1r0 : TemperatureReading := ⟨"1", 0, "16.0", "15.0", ""⟩

/-- Latest reading of the C1 example, indoor 20.0 °C. -/
def c1r1 : TemperatureReading := ⟨"2", 86400000, "22.0", "20.0", ""⟩

/-- First reading of the C2 example (timestamp 0). -/
def c2a : TemperatureReading := ⟨"a", 0, "10.0", "10.0", ""⟩

/-- Second reading of the C2 example (timestamp 10). -/
def c2b : TemperatureReading := ⟨"b", 10, "11.0", "11.0", ""⟩

/-- Third reading of the C2 example (timestamp 20). -/
def c2c : TemperatureReading := ⟨"c", 20, "12.0", "12.0", ""⟩

/-- Reading exactly 24 hours before `c3c`. -/
def c3a : TemperatureReading := ⟨"a", 0, "18.0", "19.0", ""⟩

/-- Reading 12 hours before `c3c`. -/
def c3b : TemperatureReading := ⟨"b", 43200000, "21.0", "20.0", ""⟩

/-- Latest reading of the C3 example. -/
def c3c : TemperatureReading := ⟨"c", 86400000, "22.0", "21.0", ""⟩

/-- Latest reading with outdoor 26.0 °C warmer than indoor 24.0 °C. -/
def c4r : TemperatureReading := ⟨"w", 0, "26.0", "24.0", ""⟩

/-- The single reading of the C5 example. -/
def c5r : TemperatureReading := ⟨"s", 0, "21.0", "20.0", ""⟩

/-- Well-formed reading one day before the malformed one. -/
def c6good : TemperatureReading := ⟨"1", 0, "21.0", "20.0", ""⟩

/-- Latest reading whose `indoor_temp` is the malformed (empty) string. -/
def c6bad : TemperatureReading := ⟨"2", 86400000, "25.0", "", ""⟩

/-- The reading of the C7 example, at instant 100. -/
def c7r : TemperatureReading := ⟨"r", 100, "20.0", "19.0", ""⟩

/-- First reading of the C9 example. -/
def c9a : TemperatureReading := ⟨"a", 0, "20.0", "19.0", ""⟩

/-- Second reading of the C9 example, one hour later. -/
def c9b : TemperatureReading := ⟨"b", 3600000, "21.0", "20.0", ""⟩

/-- First reading of the C10 example. -/
def c10a : TemperatureReading := ⟨"a", 50, "20.0", "19.0", ""⟩

/-- Second reading of the C10 example. -/
def c10b : TemperatureReading := ⟨"b", 100, "21.0", "20.0", ""⟩

/-! Helper lemmas. -/

/-- JavaScript subtraction antisymmetry: `a - b` is the JavaScript negation
of `b - a`, NaN propagating on both sides. -/
theorem JsNum.sub_eq_neg_swap (a b : JsNum) :
    JsNum.sub a b = JsNum.neg (JsNum.sub b a) := by
  cases a <;> cases b <;> simp [JsNum.sub, JsNum.neg, neg_sub]

/-- JavaScript greater-than is true exactly between two numeric values in
strict order; every comparison involving NaN is false. -/
theorem JsNum.gt_eq_true_iff (x y : JsNum) :
    JsNum.gt x y = true ↔
      ∃ a b : ℚ, x = JsNum.num a ∧ y = JsNum.num b ∧ b < a := by
  cases x <;> cases y <;> simp [JsNum.gt]

/-- JavaScript greater-than is irreflexive. -/
theorem JsNum.gt_self_eq_false (x : JsNum) : JsNum.gt x x = false := by
  cases x <;> simp [JsNum.gt]

/-- A left fold with step `if f x < f c then x else c` keeps the initial
accumulator when no element strictly beats it, and otherwise returns a list
element that strictly beats the initial accumulator and everything before
it, and is minimal for everything after it. -/
theorem foldl_argmin_first {α : Type} (f : α → ℕ) (l : List α) :
    ∀ init m : α,
      l.foldl (fun c x => if f x < f c then x else c) init = m →
      (m = init ∧ ∀ x ∈ l, f init ≤ f x) ∨
      ∃ l1 l2, l = l1 ++ m :: l2 ∧ f m < f init ∧
        (∀ x ∈ l1, f m < f x) ∧ ∀ x ∈ l2, f m ≤ f x := by
  induction l with
  | nil =>
    intro init m h
    exact Or.inl ⟨h.symm, by simp⟩
  | cons x xs ih =>
    intro init m h
    rw [List.foldl_cons] at h
    by_cases hx : f x < f init
    · rw [if_pos hx] at h
      rcases ih x m h with ⟨hm, hall⟩ | ⟨l1, l2, heq, hlt, h1, h2⟩
      · subst hm
        exact Or.inr ⟨[], xs, by simp, hx, by simp, hall⟩
      · refine Or.inr ⟨x :: l1, l2, by rw [List.cons_append, heq],
          hlt.trans hx, ?_, h2⟩
        intro y hy
        rcases List.mem_cons.mp hy with rfl | hy'
        · exact hlt
        · exact h1 y hy'
    · rw [if_neg hx] at h
      rcases ih init m h with ⟨hm, hall⟩ | ⟨l1, l2, heq, hlt, h1, h2⟩
      · refine Or.inl ⟨hm, ?_⟩
        intro y hy
        rcases List.mem_cons.mp hy with rfl | hy'
        · exact le_of_not_lt hx
        · exact hall y hy'
      · refine Or.inr ⟨x :: l1, l2, by rw [List.cons_append, heq], hlt, ?_, h2⟩
        intro y hy
        rcases List.mem_cons.mp hy with rfl | hy'
        · exact lt_of_lt_of_le hlt (le_of_not_lt hx)
        · exact h1 y hy'

/-- Characterization of the nearest-past lookup: when the sequence is
non-empty it returns the first element minimizing the millisecond distance
to the target instant. -/
theorem reading24hAgo_spec (data : List TemperatureReading) (target : Int)
    (r : TemperatureReading) (h : reading24hAgo data target = some r) :
    ∃ l1 l2, data = l1 ++ r :: l2 ∧
      (∀ s ∈ data, distTo target r ≤ distTo target s) ∧
      ∀ s ∈ l1, distTo target r < distTo target s := by
  cases data with
  | nil => simp [reading24hAgo] at h
  | cons d0 rest =>
    simp only [reading24hAgo, Option.some.injEq] at h
    rcases foldl_argmin_first (distTo target) (d0 :: rest) d0 r h with
      ⟨hm, hall⟩ | ⟨l1, l2, heq, hlt, h1, h2⟩
    · subst hm
      exact ⟨[], rest, by simp, hall, by simp⟩
    · refine ⟨l1, l2, heq, ?_, h1⟩
      intro s hs
      rw [heq] at hs
      rcases List.mem_append.mp hs with hs1 | hs2
      · exact le_of_lt (h1 s hs1)
      · rcases List.mem_cons.mp hs2 with rfl | hs3
        · exact le_refl _
        · exact h2 s hs3

/-- The window recommendation computed from an explicit latest reading. -/
theorem shouldCloseWindows_of_last (data : List TemperatureReading)
    (latest : TemperatureReading) (h : latestReading data = some latest) :
    shouldCloseWindows data
      = JsNum.gt (parseFloat latest.outdoor_temp) (parseFloat latest.indoor_temp) := by
  unfold shouldCloseWindows
  rw [h]

/-! Claim theorems. -/

unseal Rat.add Rat.sub Rat.mul Rat.inv in
/-- Claim C1, counterexample: on a two-reading sequence whose nearest past
indoor value is 15.0 and whose current value is 20.0, the code returns
-5 (past minus current) while the spec's formula
currentValue - valueAtNearestPastReading gives +5, so the claim as stated
is false of the code. -/
theorem C1_counterexample :
    get24hDifference [c1r0, c1r1] "20.0" true = some (JsNum.num (-5)) ∧
    specDelta24h [c1r0, c1r1] "20.0" true = some (JsNum.num 5) ∧
    (some (JsNum.num (-5)) : Option JsNum) ≠ some (JsNum.num 5) := by
  decide

/-- Claim C1 (amended): for every reading sequence, `get24hDifference`
returns the JavaScript negation of the spec's signed delta
currentValue - valueAtNearestPastReading (so it computes
valueAtNearestPastReading - currentValue), and both sides are null exactly
when no readings exist. -/
theorem C1_delta_negated_spec (data : List TemperatureReading) (ct : String)
    (ind : Bool) :
    get24hDifference data ct ind = Option.map JsNum.neg (specDelta24h data ct ind) := by
  unfold get24hDifference specDelta24h
  split
  · rfl
  · split
    · rfl
    · rw [JsNum.sub_eq_neg_swap]
      rfl

/-- Claim C2: when the nearest-past lookup returns a reading, that reading
minimizes the distance |timestamp - target| over the whole sequence, and
every reading strictly before it in scan order has strictly larger
distance — so ties resolve to the first candidate encountered. -/
theorem C2_nearest_lookup_first_minimizer (data : List TemperatureReading)
    (target : Int) (r : TemperatureReading)
    (h : reading24hAgo data target = some r) :
    ∃ l1 l2, data = l1 ++ r :: l2 ∧
      (∀ s ∈ data, distTo target r ≤ distTo target s) ∧
      ∀ s ∈ l1, distTo target r < distTo target s :=
  reading24hAgo_spec data target r h

/-- Witness for C2: on three readings at instants 0, 10, 20 with target 5,
the readings at 0 and 10 tie at distance 5 and the lookup returns the first
one scanned, the reading at instant 0. -/
theorem C2_witness :
    ∃ l1 l2, [c2a, c2b, c2c] = l1 ++ c2a :: l2 ∧
      (∀ s ∈ [c2a, c2b, c2c], distTo 5 c2a ≤ distTo 5 s) ∧
      ∀ s ∈ l1, distTo 5 c2a < distTo 5 s :=
  C2_nearest_lookup_first_minimizer [c2a, c2b, c2c] 5 c2a (by decide)

/-- Claim C3: in a strictly ascending sequence that contains a reading
whose timestamp is exactly 24 hours before the latest reading's timestamp,
the nearest-past lookup returns that exact reading. -/
theorem C3_exact_reading_24h_before (data : List TemperatureReading)
    (latest r : TemperatureReading)
    (hsorted : List.Pairwise (fun a b => a.timestamp < b.timestamp) data)
    (hlast : latestReading data = some latest)
    (hr : r ∈ data)
    (hts : r.timestamp = latest.timestamp - 24 * 60 * 60 * 1000) :
    reading24hAgo data (latest.timestamp - 24 * 60 * 60 * 1000) = some r := by
  cases data with
  | nil => cases hr
  | cons d0 rest =>
    set target := latest.timestamp - 24 * 60 * 60 * 1000 with htarget
    have hres : reading24hAgo (d0 :: rest) target
        = some ((d0 :: rest).foldl (fun closest reading =>
            if distTo target reading < distTo target closest then reading
            else closest) d0) := rfl
    set m := (d0 :: rest).foldl (fun closest reading =>
        if distTo target reading < distTo target closest then reading
        else closest) d0 with hm
    obtain ⟨l1, l2, heq, hmin, hfirst⟩ := reading24hAgo_spec (d0 :: rest) target m hres
    have hr0 : distTo target r = 0 := by
      simp [distTo, hts]
    have hm0 : distTo target m = 0 := Nat.le_zero.mp (hr0 ▸ hmin r hr)
    have hmts : m.timestamp = r.timestamp := by
      have h1 : m.timestamp - target = 0 := Int.natAbs_eq_zero.mp hm0
      have h2 : r.timestamp - target = 0 := Int.natAbs_eq_zero.mp hr0
      omega
    have hmr : m = r := by
      rw [heq] at hsorted hr
      rcases List.mem_append.mp hr with hr1 | hr2
      · exfalso
        have hlt := (List.pairwise_append.mp hsorted).2.2 r hr1 m
          (List.mem_cons_self m l2)
        omega
      · rcases List.mem_cons.mp hr2 with rfl | hr3
        · rfl
        · exfalso
          have hp := (List.pairwise_append.mp hsorted).2.1
          have hlt := (List.pairwise_cons.mp hp).1 r hr3
          omega
    rw [hres, hmr]

/-- Witness for C3: among readings at instants 0, 12h, 24h the lookup from
the latest reading returns the reading exactly 24 hours earlier. -/
theorem C3_witness :
    reading24hAgo [c3a, c3b, c3c] (c3c.timestamp - 24 * 60 * 60 * 1000)
      = some c3a :=
  C3_exact_reading_24h_before [c3a, c3b, c3c] c3c c3a (by decide) (by decide)
    (by decide) (by decide)

/-- Claim C4: the window recommendation is a function of the latest reading
only; it is true (close windows) exactly when the latest outdoor value is
a number strictly greater than the latest indoor value, and in particular
equal parsed values give false (windows may stay open). -/
theorem C4_window_close_iff (data : List TemperatureReading)
    (latest : TemperatureReading) (h : latestReading data = some latest) :
    (shouldCloseWindows data = true ↔
      ∃ a b : ℚ, parseFloat latest.outdoor_temp = JsNum.num a ∧
        parseFloat latest.indoor_temp = JsNum.num b ∧ b < a) ∧
    (parseFloat latest.indoor_temp = parseFloat latest.outdoor_temp →
      shouldCloseWindows data = false) ∧
    ∀ data' : List TemperatureReading, latestReading data' = some latest →
      shouldCloseWindows data' = shouldCloseWindows data := by
  have hs := shouldCloseWindows_of_last data latest h
  refine ⟨?_, ?_, ?_⟩
  · rw [hs]
    exact JsNum.gt_eq_true_iff _ _
  · intro heq
    rw [hs, ← heq]
    exact JsNum.gt_self_eq_false _
  · intro data' h'
    rw [shouldCloseWindows_of_last data' latest h', hs]

unseal Rat.add Rat.sub Rat.mul Rat.inv in
/-- Witness for C4: with indoor 24.0 and outdoor 26.0 at the latest (only)
reading, the recommendation is to close the windows. -/
theorem C4_witness : shouldCloseWindows [c4r] = true :=
  ((C4_window_close_iff [c4r] c4r (by decide)).1).mpr
    ⟨26, 24, by decide, by decide, by decide⟩

unseal Rat.add Rat.sub Rat.mul Rat.inv in
/-- Claim C5, counterexample: on a one-reading sequence (fewer than 2
elements) `get24hDifference` does not return null; it returns the numeric
delta 0 computed against the sole reading itself. -/
theorem C5_counterexample :
    get24hDifference [c5r] c5r.indoor_temp true = some (JsNum.num 0) ∧
    get24hDifference [c5r] c5r.indoor_temp true ≠ none := by
  decide

/-- Claim C5 (amended): for every sequence with fewer than 2 readings the
delta annotation cell is empty (the `data.length > 1` render guard hides
it), and on the empty sequence `get24hDifference` itself returns null; the
computation is total, so it never throws. -/
theorem C5_few_readings_hide_delta (data : List TemperatureReading)
    (ct : String) (ind : Bool) (h : data.length < 2) :
    deltaText data ind = "" ∧
    (data = [] → get24hDifference data ct ind = none) := by
  cases data with
  | nil => exact ⟨rfl, fun _ => rfl⟩
  | cons a tail =>
    cases tail with
    | nil => exact ⟨rfl, fun hc => nomatch hc⟩
    | cons b tail2 =>
      exfalso
      simp only [List.length_cons] at h
      omega

/-- Witness for C5: on the one-reading sequence the annotation is empty. -/
theorem C5_witness :
    deltaText [c5r] true = "" ∧
    ([c5r] = [] → get24hDifference [c5r] c5r.indoor_temp true = none) :=
  C5_few_readings_hide_delta [c5r] c5r.indoor_temp true (by decide)

/-- Claim C6 (code bug): when the latest reading's `indoor_temp` is the
malformed (empty) string, parsing indeed yields the non-finite NaN, but the
delta call returns NaN rather than null, so the delta cell is rendered with
the literal text "NaN" in it, and the indoor value cell renders the literal
string "NaN" instead of a placeholder. -/
theorem C6_nan_is_rendered :
    parseFloat "" = JsNum.nan ∧
    displayedIndoorValue [c6good, c6bad] = "NaN" ∧
    get24hDifference [c6good, c6bad] "" true = some JsNum.nan ∧
    deltaText [c6good, c6bad] true = "NaNmenos que ayer" ∧
    deltaText [c6good, c6bad] true ≠ "" := by
  decide

/-- Claim C7: the time-window filter keeps exactly the readings with
timestamp at or after now minus the selected window, and the 7d selection
contains every reading of the 24h selection. -/
theorem C7_time_window_filter (data : List TemperatureReading) (now : Int) :
    (∀ r : TemperatureReading,
      r ∈ filteredData now TimeRange.h24 data ↔
        r ∈ data ∧ now - 24 * 60 * 60 * 1000 ≤ r.timestamp) ∧
    (∀ r : TemperatureReading,
      r ∈ filteredData now TimeRange.d7 data ↔
        r ∈ data ∧ now - 7 * 24 * 60 * 60 * 1000 ≤ r.timestamp) ∧
    ∀ r : TemperatureReading,
      r ∈ filteredData now TimeRange.h24 data →
        r ∈ filteredData now TimeRange.d7 data := by
  refine ⟨?_, ?_, ?_⟩
  · intro r
    simp [filteredData, List.mem_filter, cutoffTime]
  · intro r
    simp [filteredData, List.mem_filter, cutoffTime]
  · intro r hr
    simp only [filteredData, List.mem_filter, cutoffTime, decide_eq_true_eq] at hr ⊢
    obtain ⟨hmem, hcut⟩ := hr
    exact ⟨hmem, by omega⟩

/-- Witness for C7: a reading at the current instant is kept by the 7d
filter because it is kept by the 24h filter. -/
theorem C7_witness : c7r ∈ filteredData 100 TimeRange.d7 [c7r] :=
  (C7_time_window_filter [c7r] 100).2.2 c7r (by decide)

/-- Claim C8: on the empty sequence the recommendation defaults to open
(false), both value cells show the placeholder, the delta cells are empty,
and the delta computation returns null — nothing fails. -/
theorem C8_empty_sequence_defaults :
    shouldCloseWindows [] = false ∧
    displayedIndoorValue [] = "--" ∧
    displayedOutdoorValue [] = "--" ∧
    deltaText [] true = "" ∧
    deltaText [] false = "" ∧
    ∀ (ct : String) (ind : Bool), get24hDifference [] ct ind = none :=
  ⟨rfl, rfl, rfl, rfl, rfl, fun _ _ => rfl⟩

/-- Claim C9: whenever the nearest-past lookup returns a reading, that
reading is an element of the input sequence. -/
theorem C9_nearest_lookup_mem (data : List TemperatureReading) (target : Int)
    (r : TemperatureReading) (h : reading24hAgo data target = some r) :
    r ∈ data := by
  obtain ⟨l1, l2, heq, -, -⟩ := reading24hAgo_spec data target r h
  rw [heq]
  exact List.mem_append_right l1 (List.mem_cons_self r l2)

/-- Witness for C9: on a concrete two-reading sequence the lookup result is
a member of the sequence. -/
theorem C9_witness : c9a ∈ [c9a, c9b] :=
  C9_nearest_lookup_mem [c9a, c9b] 0 c9a (by decide)

/-- Claim C10: the time-window filter returns a sublist of its input
(relative order preserved), and in particular an input ascending by
timestamp filters to an output ascending by timestamp. -/
theorem C10_filter_preserves_order (now : Int) (timeRange : TimeRange)
    (data : List TemperatureReading) :
    List.Sublist (filteredData now timeRange data) data ∧
    (List.Pairwise (fun a b => a.timestamp ≤ b.timestamp) data →
      List.Pairwise (fun a b => a.timestamp ≤ b.timestamp)
        (filteredData now timeRange data)) :=
  ⟨List.filter_sublist data,
   fun hp => hp.sublist (List.filter_sublist data)⟩

/-- Witness for C10: a concrete ascending two-reading sequence stays
ascending after the 24h filter. -/
theorem C10_witness :
    List.Pairwise (fun a b : TemperatureReading => a.timestamp ≤ b.timestamp)
      (filteredData 60 TimeRange.h24 [c10a, c10b]) :=
  (C10_filter_preserves_order 60 TimeRange.h24 [c10a, c10b]).2 (by decide)
